import Mathlib

/-!
Verification of `review.py` (Vertex AI code-review bot) against its
natural-language specification.

The Python values that flow through the program (parsed JSON responses,
GitHub file descriptors, HTTP results) are embedded as Lean inductive
types; each Python function used by the claims is translated into a Lean
definition of the same name.  External HTTP transports are modelled as
oracle functions supplied as arguments.
-/

/-!  A parsed JSON / Python value: `null`, booleans, integers, strings,
sequences and string-keyed mappings.  Mappings are association lists in
insertion order, which is exactly the iteration order of a Python `dict`. -/
mutual
inductive Json where
  | null : Json
  | bool : Bool → Json
  | num : Int → Json
  | str : String → Json
  | arr : JList → Json
  | obj : JEntries → Json
deriving DecidableEq

inductive JList where
  | nil : JList
  | cons : Json → JList → JList
deriving DecidableEq

inductive JEntries where
  | nil : JEntries
  | cons : String → Json → JEntries → JEntries
deriving DecidableEq
end

/-- Build a `JList` from a Lean list (convenience for concrete instances). -/
def jlist : List Json → JList
  | [] => .nil
  | h :: t => .cons h (jlist t)

/-- Build `JEntries` from a Lean list of pairs (convenience). -/
def jentries : List (String × Json) → JEntries
  | [] => .nil
  | (k, v) :: t => .cons k v (jentries t)

/-- Convenience constructor for a JSON array. -/
def jarr (l : List Json) : Json := .arr (jlist l)

/-- Convenience constructor for a JSON object. -/
def jobj (l : List (String × Json)) : Json := .obj (jentries l)

/-- Python `d.get(key)`: first binding of `key` in the mapping (keys of a
Python dict are unique, so first-binding lookup is exact). -/
def lookupE : JEntries → String → Option Json
  | .nil, _ => none
  | .cons k v tl, key => if k = key then some v else lookupE tl key

/-- Python `isinstance(v, str)` refined to also give the string: `some s` iff the
value is the string `s`. -/
def asStr : Json → Option String
  | .str s => some s
  | _ => none

/-!  The fallback search of the normalizer (`find_content` in
`extract_text_from_vertex_response`, src/review.py lines 159-175).

For a dict it walks the items in order; an item whose key is `"content"`
and whose value is a string is returned immediately; otherwise the search
recurses into the value, and a recursive result is returned only when it
is truthy in Python (`if res:`), i.e. not `None` and not the empty
string.  Lists are walked in index order the same way. -/
mutual
def find_content : Json → Option String
  | .obj entries => find_content_entries entries
  | .arr elems => find_content_list elems
  | _ => none

def find_content_entries : JEntries → Option String
  | .nil => none
  | .cons k v tl =>
    match (if k = "content" then asStr v else none) with
    | some s => some s
    | none =>
      match find_content v with
      | some r => if r = "" then find_content_entries tl else some r
      | none => find_content_entries tl

def find_content_list : JList → Option String
  | .nil => none
  | .cons h tl =>
    match find_content h with
    | some r => if r = "" then find_content_list tl else some r
    | none => find_content_list tl
end

/-!  The search described by the spec's words (§4.5 item 5), for the
refinement comparison of claim C3: a depth-first search over the whole
structure for any key literally named `content` whose value is a string,
returning the first one found in traversal order — mappings visited in
key order (each entry examined before descending into its value),
sequences in index order.  Unlike the code, every string value counts,
including the empty string.  -/
mutual
def dfs_first_content : Json → Option String
  | .obj entries => dfs_entries entries
  | .arr elems => dfs_list elems
  | _ => none

def dfs_entries : JEntries → Option String
  | .nil => none
  | .cons k v tl =>
    match (if k = "content" then asStr v else none) with
    | some s => some s
    | none =>
      match dfs_first_content v with
      | some r => some r
      | none => dfs_entries tl

def dfs_list : JList → Option String
  | .nil => none
  | .cons h tl =>
    match dfs_first_content h with
    | some r => some r
    | none => dfs_list tl
end

/-!  "No `content` key anywhere in the structure holds the empty string":
the side condition under which the code's fallback coincides with the
spec's first-found search. -/
mutual
def necJ : Json → Bool
  | .obj entries => necE entries
  | .arr elems => necL elems
  | _ => true

def necE : JEntries → Bool
  | .nil => true
  | .cons k v tl =>
    (match (if k = "content" then asStr v else none) with
     | some s => s ≠ ""
     | none => true) && necJ v && necE tl

def necL : JList → Bool
  | .nil => true
  | .cons h tl => necJ h && necL tl
end

/-- The single-quote character, used by Python `repr` of strings. -/
def pysq : String := String.singleton (Char.ofNat 39)

/-!  Python `str()` (used by `extract_text_from_vertex_response` on a
non-dict argument, src/review.py line 134).  `str` of a string is the
string itself; `str` of a container renders it with `repr` applied to the
elements: lists as `[a, b]`, dicts as `{'k': v}`, `True`/`False`/`None`
for the scalars.  Escaping inside `repr` of a string is not modelled; the
concrete values the claims evaluate contain no quotes or escapes. -/
mutual
def python_repr : Json → String
  | .null => "None"
  | .bool true => "True"
  | .bool false => "False"
  | .num n => toString n
  | .str s => pysq ++ s ++ pysq
  | .arr l => "[" ++ python_repr_list l ++ "]"
  | .obj e => "\x7b" ++ python_repr_entries e ++ "\x7d"

def python_repr_list : JList → String
  | .nil => ""
  | .cons h .nil => python_repr h
  | .cons h tl => python_repr h ++ ", " ++ python_repr_list tl

def python_repr_entries : JEntries → String
  | .nil => ""
  | .cons k v .nil => pysq ++ k ++ pysq ++ ": " ++ python_repr v
  | .cons k v tl => pysq ++ k ++ pysq ++ ": " ++ python_repr v ++ ", " ++ python_repr_entries tl
end

/-- Python `str(v)`: the string itself for a string, `repr` otherwise. -/
def python_str : Json → String
  | .str s => s
  | v => python_repr v

/-!  `json.dumps(resp_json, ensure_ascii=False, indent=2)`
(src/review.py line 177).  The Python pretty-printer's whitespace and
indentation are not reproduced (the claims depend only on the dump being
a non-empty rendering of the whole structure); keys and strings are
double-quoted, scalars use JSON spellings. -/
mutual
def json_dumps : Json → String
  | .null => "null"
  | .bool true => "true"
  | .bool false => "false"
  | .num n => toString n
  | .str s => "\"" ++ s ++ "\""
  | .arr l => "[" ++ json_dumps_list l ++ "]"
  | .obj e => "\x7b" ++ json_dumps_entries e ++ "\x7d"

def json_dumps_list : JList → String
  | .nil => ""
  | .cons h .nil => json_dumps h
  | .cons h tl => json_dumps h ++ ", " ++ json_dumps_list tl

def json_dumps_entries : JEntries → String
  | .nil => ""
  | .cons k v .nil => "\"" ++ k ++ "\"" ++ ": " ++ json_dumps v
  | .cons k v tl => "\"" ++ k ++ "\"" ++ ": " ++ json_dumps v ++ ", " ++ json_dumps_entries tl
end

/-- The unrolled loop `for k in ("content", "text", "output")` over
`predictions[0]` (src/review.py lines 141-143): the first of the three
keys whose value is present and is a string. -/
def pred_fields (m : JEntries) : Option String :=
  match lookupE m "content" with
  | some (.str s) => some s
  | _ =>
    match lookupE m "text" with
    | some (.str s) => some s
    | _ =>
      match lookupE m "output" with
      | some (.str s) => some s
      | _ => none

/-- The `predictions` block of the normalizer (src/review.py lines
137-152).  Returns `some` of the extracted value when one of the early
returns fires, `none` when control falls through to the `candidates`
check.  Note the `candidates[0].output[0].content` return (line 152) is
not type-checked by the code and may yield a non-string value. -/
def extract_preds (entries : JEntries) : Option Json :=
  match lookupE entries "predictions" with
  | some (.arr (.cons p0 _)) =>
    match p0 with
    | .obj m =>
      match pred_fields m with
      | some s => some (.str s)
      | none =>
        match lookupE m "candidates" with
        | some (.arr (.cons c0 _)) =>
          match c0 with
          | .obj cm =>
            match lookupE cm "content" with
            | some (.str s) => some (.str s)
            | _ =>
              match lookupE cm "output" with
              | some (.arr (.cons out0 _)) =>
                match out0 with
                | .obj om =>
                  match lookupE om "content" with
                  | some v => some v
                  | none => none
                | _ => none
              | _ => none
          | _ => none
        | _ => none
    | _ => none
  | _ => none

/-- The top-level `candidates` block (src/review.py lines 154-157).
`candidates[0]["content"]` is returned without a string check. -/
def extract_cands (entries : JEntries) : Option Json :=
  match lookupE entries "candidates" with
  | some (.arr (.cons first _)) =>
    match first with
    | .obj fm => lookupE fm "content"
    | _ => none
  | _ => none

/-- The normalizer `extract_text_from_vertex_response` (src/review.py lines 131-177).
A non-dict argument is rendered with `str()`.  For a dict, the
`predictions` matchers run first, then the top-level `candidates`
matcher, then the `find_content` fallback (whose result is used only
when truthy), and finally the `json.dumps` diagnostic dump.  The Python
function can return a non-string object on the two unchecked paths, so
the embedded return type is `Json`; string results are wrapped `.str`. -/
def extract_text_from_vertex_response (resp : Json) : Json :=
  match resp with
  | .obj entries =>
    match extract_preds entries with
    | some v => v
    | none =>
      match extract_cands entries with
      | some v => v
      | none =>
        match find_content resp with
        | some f => if f = "" then .str (json_dumps resp) else .str f
        | none => .str (json_dumps resp)
  | _ => .str (python_str resp)

/-- Spec-side definition for claim C6 (spec §4.5 item 1): check the given
keys in their fixed priority order and return the first one whose value
is a string. -/
def first_string_field (m : JEntries) : List String → Option String
  | [] => none
  | k :: ks =>
    match lookupE m k with
    | some (.str s) => some s
    | _ => first_string_field m ks

/-- Character-list helper: does the pattern occur at the head? -/
def leadsWith : List Char → List Char → Bool
  | [], _ => true
  | _ :: _, [] => false
  | p :: ps, c :: cs => p = c && leadsWith ps cs

/-- Character-list helper: does the pattern occur anywhere? -/
def findSub (pat : List Char) : List Char → Bool
  | [] => leadsWith pat []
  | c :: cs => leadsWith pat (c :: cs) || findSub pat cs

/-- Python `pat in s` on strings: substring containment. -/
def str_contains (s pat : String) : Bool := findSub pat.data s.data

/-- Python `s.lower()`, modelled character-wise over the string's data
(ASCII case mapping, which covers every value the program compares). -/
def py_lower (s : String) : String := String.mk (s.data.map Char.toLower)

/-- Python `s.endswith(t)`: is `t` a suffix of `s`? -/
def py_endswith (s t : String) : Bool := leadsWith t.data.reverse s.data.reverse

/-- Function `is_gemini_model` (src/review.py lines 113-116): false for an empty
(falsy) model name, else whether `"gemini"` occurs in the lowercased
name. -/
def is_gemini_model (model : String) : Bool :=
  if model = "" then false
  else str_contains (py_lower model) "gemini"

/-- Function `vertex_predict_endpoint` (src/review.py lines 118-123). -/
def vertex_predict_endpoint (project location model : String) : String :=
  let model_id := if model.startsWith "models/" then model.drop 7 else model
  "https://" ++ location ++ "-aiplatform.googleapis.com/v1/projects/" ++ project ++
    "/locations/" ++ location ++ "/publishers/google/models/" ++ model_id ++ ":predict"

/-- Function `vertex_stream_endpoint` (src/review.py lines 125-129): the model id
is the last `/`-separated segment. -/
def vertex_stream_endpoint (project location model : String) : String :=
  let model_id := (model.splitOn "/").getLastD ""
  "https://" ++ location ++ "-aiplatform.googleapis.com/v1/projects/" ++ project ++
    "/locations/" ++ location ++ "/publishers/google/models/" ++ model_id ++ ":streamGenerateContent"

/-- The configuration read from the environment at module load
(src/review.py lines 23-25): `GCP_PROJECT_ID` may be unset. -/
structure VertexEnv where
  GCP_PROJECT : Option String
  GCP_LOCATION : String
  GCP_MODEL : String

/-- Outcome of one `requests.post` to the Vertex endpoint: either the
request raised (`exn`), or a response arrived with a status code, a raw
text body, and — when the body is valid JSON — its parse (`r.json()`
raises on a body that is not valid JSON, which `none` models). -/
inductive PostResult where
  | exn : String → PostResult
  | resp : Nat → String → Option Json → PostResult

/-- The invoker `call_vertex_predict` (src/review.py lines 179-219).  The transport
is modelled as a stream of responses `posts`, one per request issued;
the function issues a single request, consuming `posts 0`.  `Except.error`
models an exception escaping the function (the `raise RuntimeError` when
the project id is unset, and the `r.json()` decode error on a success
response whose body is not valid JSON); every caught failure is returned
as an `.ok` error string exactly as the code formats it.  The endpoint
selection and request-body construction (lines 187-208) are pure and
unobserved by this transport model; no claim inspects the request. -/
def call_vertex_predict (env : VertexEnv) (posts : Nat → PostResult)
    (prompt token : String) : Except String Json :=
  match env.GCP_PROJECT with
  | none => .error "GCP_PROJECT_ID not set"
  | some _ =>
    match posts 0 with
    | .exn e => .ok (.str ("(Vertex request failed: " ++ e ++ ")"))
    | .resp status text body =>
      if status = 200 ∨ status = 201 then
        match body with
        | some j => .ok (extract_text_from_vertex_response j)
        | none => .error "JSONDecodeError"
      else
        .ok (.str ("(Vertex error " ++ toString status ++ ": " ++ text ++ ")"))

/-- The allow-list `TEXT_FILE_EXTENSIONS` (src/review.py lines 248-250). -/
def TEXT_FILE_EXTENSIONS : List String :=
  [".py", ".js", ".ts", ".java", ".go", ".rs", ".c", ".cpp", ".md", ".txt",
   ".json", ".yaml", ".yml", ".html", ".css", ".sh", ".rb", ".php"]

/-- The loop of `is_text_file`: return true on the first matching
extension; after the loop, the fallback `return True` treats unknown
extensions as text as well. -/
def is_text_loop (low : String) : List String → Bool
  | [] => true
  | ext :: rest => if py_endswith low ext then true else is_text_loop low rest

/-- Function `is_text_file` (src/review.py lines 252-258). -/
def is_text_file (filename : String) : Bool :=
  is_text_loop (py_lower filename) TEXT_FILE_EXTENSIONS

/-- The size-cap step of the main loop (src/review.py lines 291-293):
`MAX_CHARS = 25000`; longer content is cut to the first 25000 characters
with the truncation marker appended. -/
def truncate_content (content : String) : String :=
  if content.length > 25000 then
    content.take 25000 ++ "\n\n...file truncated for brevity..."
  else content

/-- The prompt template of the main loop (src/review.py lines 294-300). -/
def build_prompt (filename content : String) : String :=
  "You are a senior software engineer and code reviewer.\n" ++
  "Provide concise, actionable review comments as bullet points. " ++
  "Mention potential bugs, security issues, and style improvements. " ++
  "If you suggest code changes, provide short examples.\n\n" ++
  "Review file: " ++ filename ++ "\n\n```" ++ content ++ "```\n"

/-- Outcome of the raw-content GET: exception, or status plus body text. -/
inductive RawResult where
  | exn : String → RawResult
  | resp : Nat → String → RawResult

/-- The fetcher `fetch_raw_content` (src/review.py lines 86-97): the body text on a
200 response; the empty string on any other status or on an exception. -/
def fetch_raw_content (oracle : String → RawResult) (raw_url : String) : String :=
  match oracle raw_url with
  | .resp 200 t => t
  | _ => ""

/-- One changed-file descriptor as the main loop reads it
(`f.get("filename")`, `f.get("raw_url")`, both present and strings for
every file the GitHub API returns). -/
structure FileEntry where
  filename : String
  raw_url : String
deriving DecidableEq

/-- The `while True` pagination loop of `list_pr_files` (src/review.py
lines 68-84); `pages n` is the (status, parsed items) outcome of the GET
for page `n`.  `fuel` bounds the number of iterations so the definition
is total; every claim is settled at a fuel large enough to cover the run. -/
def list_pr_files_loop {α : Type} (pages : Nat → Nat × List α) :
    Nat → Nat → List α → List α
  | 0, _, files => files
  | fuel + 1, page, files =>
    let r := pages page
    if r.1 ≠ 200 then files
    else if r.2.isEmpty then files
    else if r.2.length < 100 then files ++ r.2
    else list_pr_files_loop pages fuel (page + 1) (files ++ r.2)

/-- The enumerator `list_pr_files` (src/review.py lines 68-84): start at page 1 with an
empty accumulator. -/
def list_pr_files {α : Type} (pages : Nat → Nat × List α) (fuel : Nat) : List α :=
  list_pr_files_loop pages fuel 1 []

/-- Instrumented twin of `list_pr_files_loop` counting the page requests
issued (one per iteration entered). -/
def list_pr_files_calls_loop {α : Type} (pages : Nat → Nat × List α) :
    Nat → Nat → Nat
  | 0, _ => 0
  | fuel + 1, page =>
    let r := pages page
    if r.1 ≠ 200 then 1
    else if r.2.isEmpty then 1
    else if r.2.length < 100 then 1
    else 1 + list_pr_files_calls_loop pages fuel (page + 1)

/-- Number of page requests `list_pr_files` issues. -/
def list_pr_files_calls {α : Type} (pages : Nat → Nat × List α) (fuel : Nat) : Nat :=
  list_pr_files_calls_loop pages fuel 1

/-- The per-file loop of `main` (src/review.py lines 279-302).  `fetchO`
is the raw-content transport, `vertex` maps each prompt to the Vertex
transport outcome for the single request made for that prompt.  A file
failing `is_text_file` is skipped (`continue`), a file with empty or
failed fetch is skipped (`continue`), otherwise the truncated content is
rendered into the prompt, the backend is called, and whatever string the
call returned — review text or formatted error — is appended with the
path.  `Except.error` models an exception escaping the loop (which would
crash `main`). -/
def process_files (env : VertexEnv) (fetchO : String → RawResult)
    (vertex : String → PostResult) (token : String) :
    List FileEntry → Except String (List (String × Json))
  | [] => .ok []
  | f :: rest =>
    if is_text_file f.filename = false then
      process_files env fetchO vertex token rest
    else
      let content := fetch_raw_content fetchO f.raw_url
      if content = "" then process_files env fetchO vertex token rest
      else
        let content2 := truncate_content content
        let prompt := build_prompt f.filename content2
        match call_vertex_predict env (fun _ => vertex prompt) prompt token with
        | .error e => .error e
        | .ok review =>
          match process_files env fetchO vertex token rest with
          | .error e => .error e
          | .ok tl => .ok ((f.filename, review) :: tl)

/-- Comparison twin of `process_files` with the `is_text_file` skip
branch removed, used to state that the branch is unreachable (claim C9). -/
def process_files_noskip (env : VertexEnv) (fetchO : String → RawResult)
    (vertex : String → PostResult) (token : String) :
    List FileEntry → Except String (List (String × Json))
  | [] => .ok []
  | f :: rest =>
    let content := fetch_raw_content fetchO f.raw_url
    if content = "" then process_files_noskip env fetchO vertex token rest
    else
      let content2 := truncate_content content
      let prompt := build_prompt f.filename content2
      match call_vertex_predict env (fun _ => vertex prompt) prompt token with
      | .error e => .error e
      | .ok review =>
        match process_files_noskip env fetchO vertex token rest with
        | .error e => .error e
        | .ok tl => .ok ((f.filename, review) :: tl)

/-- Python `"\n".join(lines)` on a list of lines. -/
def join_lines (sep : String) : List String → String
  | [] => ""
  | [x] => x
  | x :: rest => x ++ sep ++ join_lines sep rest

/-- The per-review lines of `build_comment` (src/review.py lines
228-233).  The Python `join` raises `TypeError` when a review value is
not a string, which `Except.error` models. -/
def review_lines : List (String × Json) → Except String (List String)
  | [] => .ok []
  | (path, rv) :: rest =>
    match rv with
    | .str s =>
      match review_lines rest with
      | .error e => .error e
      | .ok tl => .ok ("---" :: ("**File:** `" ++ path ++ "`") :: "" :: s :: "" :: tl)
    | _ => .error "TypeError: sequence item is not str"

/-- Function `build_comment` (src/review.py lines 224-235). -/
def build_comment (reviews : List (String × Json)) : Except String String :=
  match review_lines reviews with
  | .error e => .error e
  | .ok mid =>
    .ok (join_lines "\n"
      (["## Vertex AI — Automated Code Review (PoC)\n",
        "I am an automated reviewer. Suggestions below:\n"] ++ mid ++
       ["\n*This is an automated comment.*"]))

/-- Observable outcome of one run of `main` after PR identity and token
acquisition (both external collaborators): the accumulated review list
and, when `post_pr_comment` was invoked, the comment body it was given. -/
structure RunResult where
  reviews : List (String × Json)
  published : Option String

/-- Function `main` (src/review.py lines 263-309) from the point the PR identity
and the access token are in hand: enumerate the files; return at once
when there are none; run the per-file loop; return without posting when
it produced no reviews; otherwise build the comment and invoke the
publisher with it. -/
def run_pipeline (env : VertexEnv) (pages : Nat → Nat × List FileEntry)
    (fuel : Nat) (fetchO : String → RawResult) (vertex : String → PostResult)
    (token : String) : Except String RunResult :=
  let files := list_pr_files pages fuel
  if files.isEmpty then .ok ⟨[], none⟩
  else
    match process_files env fetchO vertex token files with
    | .error e => .error e
    | .ok reviews =>
      if reviews.isEmpty then .ok ⟨reviews, none⟩
      else
        match build_comment reviews with
        | .error e => .error e
        | .ok body => .ok ⟨reviews, some body⟩

/-- Projection: the review list of a completed run. -/
def run_reviews (r : Except String RunResult) : Option (List (String × Json)) :=
  match r with
  | .ok x => some x.reviews
  | .error _ => none

/-- Projection: did the run invoke the publisher? -/
def published_some (r : Except String RunResult) : Bool :=
  match r with
  | .ok x => x.published.isSome
  | .error _ => false

/-- Is the value not a mapping (the guard of src/review.py line 133)? -/
def notDict : Json → Bool
  | .obj _ => false
  | _ => true

/-- One streaming chunk as `streamGenerateContent` yields it, with review
text `t` nested inside `candidates[0].content.parts[0].text`. -/
def chunk (t : String) : Json :=
  jobj [("candidates",
    jarr [jobj [("content", jobj [("parts", jarr [jobj [("text", Json.str t)]])])]])]

/-- A two-chunk streaming response list. -/
def chunksJ : Json := jarr [chunk "A", chunk "B"]

/-- A configured environment: project id present, non-Gemini model. -/
def envA : VertexEnv := ⟨some "proj", "us-central1", "text-bison@001"⟩

/-- One changed file for the publish-on-failure scenario. -/
def fileA : FileEntry := ⟨"a.py", "uA"⟩

/-- Page oracle returning the single file `fileA` on page 1. -/
def pagesA : Nat → Nat × List FileEntry :=
  fun p => if p = 1 then (200, [fileA]) else (200, [])

/-- Page oracle with no files at all. -/
def pagesE : Nat → Nat × List FileEntry := fun _ => (200, [])

/-- Raw-content oracle that always succeeds with a small body. -/
def fetchA : String → RawResult := fun _ => .resp 200 "print(1)"

/-- Vertex transport that always answers 500. -/
def vertexErrA : String → PostResult := fun _ => .resp 500 "boom" none

/-- The three changed files of the partial-failure scenario. -/
def fileB1 : FileEntry := ⟨"a.py", "u1"⟩

def fileB2 : FileEntry := ⟨"b.py", "u2"⟩

def fileB3 : FileEntry := ⟨"c.py", "u3"⟩

/-- Page oracle returning the three scenario files on page 1. -/
def pagesB : Nat → Nat × List FileEntry :=
  fun p => if p = 1 then (200, [fileB1, fileB2, fileB3]) else (200, [])

/-- Raw-content oracle failing exactly for file #2's locator. -/
def fetchB : String → RawResult :=
  fun u => if u = "u2" then .resp 500 "server error" else .resp 200 "print(1)"

/-- Vertex transport answering every prompt with a well-formed
`predictions[0].content` body whose review text is `"OK"`. -/
def vertexOK : String → PostResult :=
  fun _ => .resp 200 ""
    (some (jobj [("predictions", jarr [jobj [("content", Json.str "OK")]])]))

/-- Vertex transport answering 200 with a body that is not valid JSON. -/
def posts_decode_bad : Nat → PostResult :=
  fun _ => .resp 200 "<html>oops</html>" none

/-- Vertex transport answering 404. -/
def postsW8 : Nat → PostResult := fun _ => .resp 404 "not found" none

/-- The C3 counterexample input: the first `content` string in traversal
order is the empty string, a later one is `"second"`. -/
def c3cex : Json :=
  jobj [("a", jobj [("content", Json.str "")]),
        ("b", jobj [("content", Json.str "second")])]

/-- A structure with one non-empty nested `content` string. -/
def c3wit : Json := jobj [("x", jobj [("content", Json.str "deep")])]

/-- The C6 witness mapping: `content` present but not a string, `text`
and `output` both strings. -/
def c6m : JEntries :=
  jentries [("content", Json.num 5), ("text", Json.str "T"), ("output", Json.str "O")]

/-- The C6 witness response around `c6m`. -/
def c6resp : JEntries := jentries [("predictions", jarr [.obj c6m])]

/-- A 25001-character content, one character over the cap. -/
def long_source : String := String.mk (List.replicate 25001 'a')

/-- Page oracle for the C5 witness: two full pages, then a 37-item page,
then (never requested) full pages again. -/
def pagesW5 : Nat → Nat × List Nat :=
  fun p =>
    if p = 1 then (200, List.replicate 100 0)
    else if p = 2 then (200, List.replicate 100 1)
    else if p = 3 then (200, List.replicate 37 2)
    else (200, List.replicate 100 3)

/-- A quick sanity example (kept as a theorem, not a claim theorem). -/
theorem find_content_sanity :
    find_content (jobj [("a", jobj [("content", .str "")]),
                        ("b", jobj [("content", .str "second")])]) = some "second" := by
  rfl

/-- Helper: the `is_text_file` extension loop never returns false — the
post-loop fallback makes every outcome `true`. -/
theorem is_text_loop_true (low : String) (l : List String) : is_text_loop low l = true := by
  induction l with
  | nil => rfl
  | cons e r ih => simp [is_text_loop, ih]

/-- Helper: the code's `predictions[0]` field loop computes exactly the
spec's fixed-priority first-string-field search. -/
theorem pred_fields_eq (m : JEntries) :
    pred_fields m = first_string_field m ["content", "text", "output"] := by
  simp only [pred_fields, first_string_field]

/-- C1: Normalizer shape coverage — each of the five documented response
shapes with `content = "REVIEW_TEXT"` at the matching nesting extracts
exactly `"REVIEW_TEXT"`, and a mapping matching none of the shapes (no
`predictions`, no `candidates`, no string-valued `content` anywhere)
yields the full structure serialized as a non-empty JSON diagnostic
string. -/
theorem normalizer_shape_coverage :
    extract_text_from_vertex_response
        (jobj [("predictions", jarr [jobj [("content", Json.str "REVIEW_TEXT")]])]) =
      Json.str "REVIEW_TEXT" ∧
    extract_text_from_vertex_response
        (jobj [("predictions", jarr [jobj [("candidates",
          jarr [jobj [("content", Json.str "REVIEW_TEXT")]])]])]) =
      Json.str "REVIEW_TEXT" ∧
    extract_text_from_vertex_response
        (jobj [("candidates", jarr [jobj [("content", Json.str "REVIEW_TEXT")]])]) =
      Json.str "REVIEW_TEXT" ∧
    extract_text_from_vertex_response (jobj [("content", Json.str "REVIEW_TEXT")]) =
      Json.str "REVIEW_TEXT" ∧
    extract_text_from_vertex_response
        (jobj [("a", jobj [("b", jobj [("content", Json.str "REVIEW_TEXT")])])]) =
      Json.str "REVIEW_TEXT" ∧
    extract_text_from_vertex_response (jobj [("foo", Json.num 1), ("bar", jarr [Json.num 2])]) =
      Json.str (json_dumps (jobj [("foo", Json.num 1), ("bar", jarr [Json.num 2])])) ∧
    json_dumps (jobj [("foo", Json.num 1), ("bar", jarr [Json.num 2])]) ≠ "" :=
  ⟨rfl, rfl, rfl, rfl, rfl, rfl, by decide⟩

/-- C4: Truncation boundary — content strictly longer than the 25000
character cap is passed on as exactly its first 25000 characters with the
truncation marker appended; content of length at most the cap is passed
on unmodified. -/
theorem truncation_boundary (content : String) :
    (25000 < content.length →
      truncate_content content =
        content.take 25000 ++ "\n\n...file truncated for brevity...") ∧
    (content.length ≤ 25000 → truncate_content content = content) := by
  constructor
  · intro h; unfold truncate_content; rw [if_pos h]
  · intro h; unfold truncate_content; rw [if_neg (by omega)]

/-- Witness for C4 at a 25001-character content and an 8-character one. -/
theorem truncation_boundary_witness :
    truncate_content long_source =
      long_source.take 25000 ++ "\n\n...file truncated for brevity..." ∧
    truncate_content "short.py" = "short.py" :=
  ⟨(truncation_boundary long_source).1
      (by simp only [long_source, String.length_mk, List.length_replicate]; omega),
   (truncation_boundary "short.py").2 (by decide)⟩

/-- C6: Predictions matcher priority — when the response mapping has a
`predictions` sequence whose first element is a mapping, and checking the
keys `content`, `text`, `output` in that fixed order finds a first
string-valued one, the normalizer returns exactly that string. -/
theorem predictions_priority (entries p0 : JEntries) (rest : JList) (s : String)
    (hp : lookupE entries "predictions" = some (.arr (.cons (.obj p0) rest)))
    (hf : first_string_field p0 ["content", "text", "output"] = some s) :
    extract_text_from_vertex_response (.obj entries) = .str s := by
  have hpf : pred_fields p0 = some s := by rw [pred_fields_eq]; exact hf
  simp [extract_text_from_vertex_response, extract_preds, hp, hpf]

/-- Witness for C6: `content` present but numeric, so `text` wins. -/
theorem predictions_priority_witness :
    extract_text_from_vertex_response (.obj c6resp) = .str "T" :=
  predictions_priority c6resp c6m .nil "T" rfl rfl

/-- C9: `is_text_file` returns true for every filename whatsoever — the
allow-list loop can only return true and the fallback returns true — so
the "skip non-text file" branch of the main loop is unreachable: the
per-file loop equals its copy with the skip branch removed. -/
theorem is_text_file_always_true :
    (∀ filename : String, is_text_file filename = true) ∧
    (∀ env fetchO vertex token files,
      process_files env fetchO vertex token files =
        process_files_noskip env fetchO vertex token files) := by
  constructor
  · intro f; exact is_text_loop_true _ _
  · intro env fetchO vertex token files
    induction files with
    | nil => rfl
    | cons f rest ih =>
      simp [process_files, process_files_noskip, is_text_file, is_text_loop_true, ih]

/-- C10: a response value that is not a mapping — for example a list of
streaming chunks — is rendered whole with Python `str()`: the normalizer
does not descend into it and does not concatenate the chunk texts. -/
theorem non_mapping_response_stringified :
    (∀ v : Json, notDict v = true →
      extract_text_from_vertex_response v = .str (python_str v)) ∧
    extract_text_from_vertex_response chunksJ = .str (python_str chunksJ) ∧
    python_str chunksJ ≠ "AB" := by
  refine ⟨?_, rfl, by decide⟩
  intro v hv
  cases v <;> first | rfl | simp [notDict] at hv

/-- Witness for C10 at a plain string response. -/
theorem non_mapping_response_stringified_witness :
    extract_text_from_vertex_response (Json.str "hello") =
      .str (python_str (Json.str "hello")) :=
  non_mapping_response_stringified.1 (Json.str "hello") rfl

/-!  Helper lemmas for C3: under the no-empty-content side condition the
spec-side first-found search never yields the empty string, and the
code's fallback coincides with it. -/
mutual
theorem dfs_ne_empty : ∀ (j : Json), necJ j = true → dfs_first_content j ≠ some ""
  | .null, _ => by simp [dfs_first_content]
  | .bool _, _ => by simp [dfs_first_content]
  | .num _, _ => by simp [dfs_first_content]
  | .str _, _ => by simp [dfs_first_content]
  | .obj e, h => by
    simp only [dfs_first_content]
    exact dfs_entries_ne_empty e (by simpa [necJ] using h)
  | .arr l, h => by
    simp only [dfs_first_content]
    exact dfs_list_ne_empty l (by simpa [necJ] using h)

theorem dfs_entries_ne_empty : ∀ (e : JEntries), necE e = true → dfs_entries e ≠ some ""
  | .nil, _ => by simp [dfs_entries]
  | .cons k v tl, h => by
    rw [necE, Bool.and_assoc, Bool.and_eq_true] at h
    obtain ⟨hm, hvt⟩ := h
    rw [Bool.and_eq_true] at hvt
    obtain ⟨hv, htl⟩ := hvt
    rw [dfs_entries]
    cases hif : (if k = "content" then asStr v else none) with
    | some s =>
      rw [hif] at hm
      simpa using hm
    | none =>
      cases hd : dfs_first_content v with
      | some r =>
        have h5 := dfs_ne_empty v hv
        rw [hd] at h5
        simpa using h5
      | none => simpa using dfs_entries_ne_empty tl htl

theorem dfs_list_ne_empty : ∀ (l : JList), necL l = true → dfs_list l ≠ some ""
  | .nil, _ => by simp [dfs_list]
  | .cons h tl, hh => by
    rw [necL, Bool.and_eq_true] at hh
    obtain ⟨hv, htl⟩ := hh
    rw [dfs_list]
    cases hd : dfs_first_content h with
    | some r =>
      have h5 := dfs_ne_empty h hv
      rw [hd] at h5
      simpa using h5
    | none => simpa using dfs_list_ne_empty tl htl
end

mutual
theorem find_eq_dfs : ∀ (j : Json), necJ j = true → find_content j = dfs_first_content j
  | .null, _ => by simp [find_content, dfs_first_content]
  | .bool _, _ => by simp [find_content, dfs_first_content]
  | .num _, _ => by simp [find_content, dfs_first_content]
  | .str _, _ => by simp [find_content, dfs_first_content]
  | .obj e, h => by
    simp only [find_content, dfs_first_content]
    exact find_entries_eq_dfs e (by simpa [necJ] using h)
  | .arr l, h => by
    simp only [find_content, dfs_first_content]
    exact find_list_eq_dfs l (by simpa [necJ] using h)

theorem find_entries_eq_dfs :
    ∀ (e : JEntries), necE e = true → find_content_entries e = dfs_entries e
  | .nil, _ => by simp [find_content_entries, dfs_entries]
  | .cons k v tl, h => by
    rw [necE, Bool.and_assoc, Bool.and_eq_true] at h
    obtain ⟨-, hvt⟩ := h
    rw [Bool.and_eq_true] at hvt
    obtain ⟨hv, htl⟩ := hvt
    rw [find_content_entries, dfs_entries]
    cases hif : (if k = "content" then asStr v else none) with
    | some s => rfl
    | none =>
      rw [find_eq_dfs v hv]
      cases hd : dfs_first_content v with
      | some r =>
        have hr : r ≠ "" := by
          have h5 := dfs_ne_empty v hv
          rw [hd] at h5
          simpa using h5
        simp [hr]
      | none => simpa using find_entries_eq_dfs tl htl

theorem find_list_eq_dfs : ∀ (l : JList), necL l = true → find_content_list l = dfs_list l
  | .nil, _ => by simp [find_content_list, dfs_list]
  | .cons h tl, hh => by
    rw [necL, Bool.and_eq_true] at hh
    obtain ⟨hv, htl⟩ := hh
    rw [find_content_list, dfs_list]
    rw [find_eq_dfs h hv]
    cases hd : dfs_first_content h with
    | some r =>
      have hr : r ≠ "" := by
        have h5 := dfs_ne_empty h hv
        rw [hd] at h5
        simpa using h5
      simp [hr]
    | none => simpa using find_list_eq_dfs tl htl
end

/-- C3 counterexample: on an input whose first `content` string in
traversal order is the empty string, the code's fallback does not return
the first one found — it skips it and returns a later, non-empty one. -/
theorem fallback_first_found_counterexample :
    dfs_first_content c3cex = some "" ∧
    find_content c3cex = some "second" ∧
    (some "" : Option String) ≠ some "second" :=
  ⟨rfl, rfl, by decide⟩

/-- C3 (amended): the normalizer's fallback is a depth-first search over
the whole structure for a key literally named `content` with a string
value — mappings in key order, sequences in index order — returning the
first one found by that traversal order, on every input in which no
`content` key holds the empty string (an empty-string find is skipped:
it aborts its enclosing mapping's scan and the search resumes at the
enclosing container); it is deterministic given identical input. -/
theorem fallback_search_amended :
    (∀ j : Json, necJ j = true → find_content j = dfs_first_content j) ∧
    (∀ j : Json, find_content j = find_content j) :=
  ⟨fun j h => find_eq_dfs j h, fun _ => rfl⟩

/-- Witness for C3 (amended) at a nested structure with one non-empty
`content` string. -/
theorem fallback_search_witness : find_content c3wit = dfs_first_content c3wit :=
  fallback_search_amended.1 c3wit rfl

/-- Helper: a full page (status 200, exactly 100 items) makes the
pagination loop extend the accumulator and continue with the next page. -/
theorem list_pr_files_loop_step {α : Type} (pages : Nat → Nat × List α)
    (fuel page : Nat) (files data : List α)
    (hp : pages page = (200, data)) (hd : data.length = 100) :
    list_pr_files_loop pages (fuel + 1) page files =
      list_pr_files_loop pages fuel (page + 1) (files ++ data) := by
  have hne : data.isEmpty = false := by
    cases data with
    | nil => simp at hd
    | cons x xs => rfl
  simp [list_pr_files_loop, hp, hne, hd]

/-- Helper: a short page (status 200, fewer than 100 items, non-empty)
stops the loop, returning the accumulator extended by the page. -/
theorem list_pr_files_loop_short {α : Type} (pages : Nat → Nat × List α)
    (fuel page : Nat) (files data : List α)
    (hp : pages page = (200, data)) (hne : data ≠ []) (hlt : data.length < 100) :
    list_pr_files_loop pages (fuel + 1) page files = files ++ data := by
  have hne2 : data.isEmpty = false := by
    cases data with
    | nil => exact absurd rfl hne
    | cons x xs => rfl
  simp [list_pr_files_loop, hp, hne2, hlt]

/-- Helper: a non-success page stops the loop, returning the accumulator. -/
theorem list_pr_files_loop_err {α : Type} (pages : Nat → Nat × List α)
    (fuel page : Nat) (files : List α) (s : Nat) (d : List α)
    (hp : pages page = (s, d)) (hs : s ≠ 200) :
    list_pr_files_loop pages (fuel + 1) page files = files := by
  simp [list_pr_files_loop, hp, hs]

/-- Helper: request count on a full page is one plus the rest. -/
theorem list_pr_files_calls_loop_step {α : Type} (pages : Nat → Nat × List α)
    (fuel page : Nat) (data : List α)
    (hp : pages page = (200, data)) (hd : data.length = 100) :
    list_pr_files_calls_loop pages (fuel + 1) page =
      1 + list_pr_files_calls_loop pages fuel (page + 1) := by
  have hne : data.isEmpty = false := by
    cases data with
    | nil => simp at hd
    | cons x xs => rfl
  simp [list_pr_files_calls_loop, hp, hne, hd]

/-- Helper: request count on a stopping page is exactly one. -/
theorem list_pr_files_calls_loop_stop {α : Type} (pages : Nat → Nat × List α)
    (fuel page : Nat) (s : Nat) (d : List α)
    (hp : pages page = (s, d)) (hstop : s ≠ 200 ∨ d.length < 100) :
    list_pr_files_calls_loop pages (fuel + 1) page = 1 := by
  rcases hstop with hs | hlt
  · simp [list_pr_files_calls_loop, hp, hs]
  · by_cases hs : s = 200
    · subst hs
      by_cases hne : d.isEmpty
      · simp [list_pr_files_calls_loop, hp, hne]
      · simp [list_pr_files_calls_loop, hp, hne, hlt]
    · simp [list_pr_files_calls_loop, hp, hs]

/-- C5: Pagination termination — when the source API returns pages of
sizes 100, 100, 37, `list_pr_files` returns exactly 237 entries and
issues exactly 3 page requests (the oracle is unconstrained from page 4
on, so no further request can influence the result); and when a page
request returns a non-success status, enumeration stops and returns what
was collected so far instead of failing. -/
theorem pagination_termination (α : Type) (pages : Nat → Nat × List α)
    (a b c : List α)
    (h1 : pages 1 = (200, a)) (ha : a.length = 100)
    (h2 : pages 2 = (200, b)) (hb : b.length = 100)
    (h3 : pages 3 = (200, c)) (hc : c.length = 37) :
    (∀ fuel, 3 ≤ fuel →
      (list_pr_files pages fuel).length = 237 ∧
      list_pr_files_calls pages fuel = 3) ∧
    (∀ (pages2 : Nat → Nat × List α) (s : Nat) (d : List α),
      pages2 1 = (200, a) → pages2 2 = (s, d) → s ≠ 200 →
      ∀ fuel, 2 ≤ fuel →
        list_pr_files pages2 fuel = a ∧ list_pr_files_calls pages2 fuel = 2) := by
  constructor
  · intro fuel hf
    obtain ⟨k, rfl⟩ : ∃ k, fuel = k + 3 := ⟨fuel - 3, by omega⟩
    have hcne : c ≠ [] := by intro h; rw [h] at hc; simp at hc
    have hclt : c.length < 100 := by omega
    constructor
    · show (list_pr_files_loop pages (k + 2 + 1) 1 []).length = 237
      rw [list_pr_files_loop_step pages (k + 2) 1 [] a h1 ha]
      show (list_pr_files_loop pages (k + 1 + 1) 2 ([] ++ a)).length = 237
      rw [list_pr_files_loop_step pages (k + 1) 2 ([] ++ a) b h2 hb]
      show (list_pr_files_loop pages (k + 1) 3 ([] ++ a ++ b)).length = 237
      rw [list_pr_files_loop_short pages k 3 ([] ++ a ++ b) c h3 hcne hclt]
      simp [ha, hb, hc]
    · show list_pr_files_calls_loop pages (k + 2 + 1) 1 = 3
      rw [list_pr_files_calls_loop_step pages (k + 2) 1 a h1 ha]
      show 1 + list_pr_files_calls_loop pages (k + 1 + 1) 2 = 3
      rw [list_pr_files_calls_loop_step pages (k + 1) 2 b h2 hb]
      show 1 + (1 + list_pr_files_calls_loop pages (k + 1) 3) = 3
      rw [list_pr_files_calls_loop_stop pages k 3 200 c h3 (Or.inr hclt)]
  · intro pages2 s d hq1 hq2 hs fuel hf
    obtain ⟨k, rfl⟩ : ∃ k, fuel = k + 2 := ⟨fuel - 2, by omega⟩
    constructor
    · show list_pr_files_loop pages2 (k + 1 + 1) 1 [] = a
      rw [list_pr_files_loop_step pages2 (k + 1) 1 [] a hq1 ha]
      show list_pr_files_loop pages2 (k + 1) 2 ([] ++ a) = a
      rw [list_pr_files_loop_err pages2 k 2 ([] ++ a) s d hq2 hs]
      simp
    · show list_pr_files_calls_loop pages2 (k + 1 + 1) 1 = 2
      rw [list_pr_files_calls_loop_step pages2 (k + 1) 1 a hq1 ha]
      show 1 + list_pr_files_calls_loop pages2 (k + 1) 2 = 2
      rw [list_pr_files_calls_loop_stop pages2 k 2 s d hq2 (Or.inl hs)]

/-- Witness for C5 at a concrete oracle with pages of sizes 100, 100, 37
and fuel 10. -/
theorem pagination_termination_witness :
    (list_pr_files pagesW5 10).length = 237 ∧ list_pr_files_calls pagesW5 10 = 3 :=
  (pagination_termination Nat pagesW5
      (List.replicate 100 0) (List.replicate 100 1) (List.replicate 37 2)
      rfl (by simp) rfl (by simp) rfl (by simp)).1 10 (by omega)

/-- C7: Empty-run suppression — whenever a completed pipeline run holds
zero review entries, the publisher was not invoked; and a run whose
entries all exist but are failures (here: one entry carrying the
formatted Vertex backend-error string) is distinct: it still publishes. -/
theorem empty_run_suppression :
    (∀ env pages fuel fetchO vertex token r,
      run_pipeline env pages fuel fetchO vertex token = .ok r →
      r.reviews = [] → r.published = none) ∧
    run_reviews (run_pipeline envA pagesA 10 fetchA vertexErrA "tok") =
      some [("a.py", Json.str "(Vertex error 500: boom)")] ∧
    published_some (run_pipeline envA pagesA 10 fetchA vertexErrA "tok") = true := by
  refine ⟨?_, rfl, rfl⟩
  intro env pages fuel fetchO vertex token r hrun hrev
  simp only [run_pipeline] at hrun
  split at hrun
  · cases hrun
    rfl
  · split at hrun
    · cases hrun
    · split at hrun
      · cases hrun
        rfl
      · split at hrun
        · cases hrun
        · cases hrun
          simp only [] at hrev
          subst hrev
          simp_all

/-- Witness for C7 applied at a run with zero files. -/
theorem empty_run_suppression_witness :
    (RunResult.mk [] none).published = none :=
  empty_run_suppression.1 envA pagesE 5 fetchA vertexErrA "tok" ⟨[], none⟩ rfl rfl

/-- C2 counterexample: in the 3-file scenario where file #2's content
fetch fails, the report does not contain 3 entries — the failed file is
silently dropped (`if not content: continue`) and only the 2 successful
files appear. -/
theorem no_silent_drops_counterexample :
    run_reviews (run_pipeline envA pagesB 10 fetchB vertexOK "tok") =
      some [("a.py", Json.str "OK"), ("c.py", Json.str "OK")] ∧
    (run_reviews (run_pipeline envA pagesB 10 fetchB vertexOK "tok")).map List.length ≠
      some 3 := by
  constructor
  · rfl
  · intro h
    rw [show run_reviews (run_pipeline envA pagesB 10 fetchB vertexOK "tok") =
        some [("a.py", Json.str "OK"), ("c.py", Json.str "OK")] from rfl] at h
    simp at h

/-- C2 (amended): each file whose content fetch yields non-empty content
produces exactly one entry of the aggregated report, in order; a file
whose fetch fails or returns an empty body produces no entry (the code
skips it with only a log line).  In the 3-file scenario with file #2's
fetch failing, the report has 2 entries — files #1 and #3, both carrying
the model's review text — and the publisher is still invoked. -/
theorem no_silent_drops_amended :
    (∀ env fetchO vertex token files l,
      process_files env fetchO vertex token files = .ok l →
      l.map Prod.fst =
        (files.filter (fun f =>
          is_text_file f.filename &&
            fetch_raw_content fetchO f.raw_url != "")).map FileEntry.filename) ∧
    run_reviews (run_pipeline envA pagesB 10 fetchB vertexOK "tok") =
      some [("a.py", Json.str "OK"), ("c.py", Json.str "OK")] ∧
    published_some (run_pipeline envA pagesB 10 fetchB vertexOK "tok") = true := by
  refine ⟨?_, rfl, rfl⟩
  intro env fetchO vertex token files
  induction files with
  | nil =>
    intro l hl
    simp only [process_files] at hl
    cases hl
    rfl
  | cons f rest ih =>
    intro l hl
    simp only [process_files] at hl
    by_cases ht : is_text_file f.filename = false
    · have htrue : is_text_file f.filename = true := is_text_loop_true _ _
      rw [htrue] at ht
      cases ht
    · rw [if_neg ht] at hl
      simp only [Bool.not_eq_false] at ht
      by_cases hc : fetch_raw_content fetchO f.raw_url = ""
      · rw [if_pos hc] at hl
        have h2 := ih l hl
        simp [List.filter_cons, ht, hc, h2]
      · rw [if_neg hc] at hl
        split at hl
        · cases hl
        · rename_i review hcall
          split at hl
          · cases hl
          · rename_i tl hrest
            cases hl
            have h2 := ih tl hrest
            simp [List.filter_cons, ht, hc, h2]

/-- Witness for C2 (amended) at the 3-file scenario. -/
theorem no_silent_drops_witness :
    ([("a.py", Json.str "OK"), ("c.py", Json.str "OK")] :
        List (String × Json)).map Prod.fst =
      (([fileB1, fileB2, fileB3].filter (fun f =>
        is_text_file f.filename &&
          fetch_raw_content fetchB f.raw_url != "")).map FileEntry.filename) :=
  no_silent_drops_amended.1 envA fetchB vertexOK "tok" [fileB1, fileB2, fileB3]
    [("a.py", Json.str "OK"), ("c.py", Json.str "OK")] rfl

/-- C8 counterexample: with the project identifier configured, a 200
response whose body is not valid JSON makes `call_vertex_predict` raise
past its own boundary (the `r.json()` decode error is outside the `try`),
contradicting "never raises past its own boundary". -/
theorem invoker_containment_counterexample :
    envA.GCP_PROJECT.isSome = true ∧
    call_vertex_predict envA posts_decode_bad "p" "t" = .error "JSONDecodeError" :=
  ⟨rfl, rfl⟩

/-- C8 (amended): given that the project identifier is configured,
`call_vertex_predict` returns an explicit backend-error value carrying
the message on a request exception, and one carrying the status and body
text on any HTTP status other than 200/201, rather than raising; it makes
exactly one attempt (its outcome depends only on the first transport
response); and the only way it raises is a 200/201 response whose body
fails JSON decoding. -/
theorem invoker_containment_amended (env : VertexEnv) (posts : Nat → PostResult)
    (prompt token p : String) (hp : env.GCP_PROJECT = some p) :
    (∀ e, posts 0 = .exn e →
      call_vertex_predict env posts prompt token =
        .ok (.str ("(Vertex request failed: " ++ e ++ ")"))) ∧
    (∀ s t b, posts 0 = .resp s t b → s ≠ 200 → s ≠ 201 →
      call_vertex_predict env posts prompt token =
        .ok (.str ("(Vertex error " ++ toString s ++ ": " ++ t ++ ")"))) ∧
    (∀ posts2 : Nat → PostResult, posts2 0 = posts 0 →
      call_vertex_predict env posts2 prompt token =
        call_vertex_predict env posts prompt token) ∧
    (∀ err, call_vertex_predict env posts prompt token = .error err →
      ∃ t, posts 0 = .resp 200 t none ∨ posts 0 = .resp 201 t none) := by
  refine ⟨?_, ?_, ?_, ?_⟩
  · intro e he
    simp [call_vertex_predict, hp, he]
  · intro s t b hr hs1 hs2
    simp [call_vertex_predict, hp, hr, hs1, hs2]
  · intro posts2 h2
    simp [call_vertex_predict, hp, h2]
  · intro err herr
    cases hpost : posts 0 with
    | exn e =>
      simp only [call_vertex_predict, hp, hpost] at herr
      cases herr
    | resp s t b =>
      simp only [call_vertex_predict, hp, hpost] at herr
      by_cases hs : s = 200 ∨ s = 201
      · rw [if_pos hs] at herr
        cases b with
        | some j => simp at herr
        | none =>
          refine ⟨t, ?_⟩
          rcases hs with h | h
          · exact Or.inl (by rw [h])
          · exact Or.inr (by rw [h])
      · rw [if_neg hs] at herr
        simp at herr

/-- Witness for C8 (amended) at a configured environment and a 404
transport response. -/
theorem invoker_containment_witness :
    call_vertex_predict envA postsW8 "p" "t" =
      .ok (.str ("(Vertex error " ++ toString (404 : Nat) ++ ": " ++ "not found" ++ ")")) :=
  ((invoker_containment_amended envA postsW8 "p" "t" "proj" rfl).2.1)
    404 "not found" none rfl (by decide) (by decide)
